import Mathlib

/- Shallow embedding of the AI stocks analyser backend (src/backend/main.py):
   the pydantic request models and their validation, the POST /api/chat
   endpoint with its streaming response, the agent tool registry created by
   create_agent, and the seven yfinance-backed data-lookup tools. -/

namespace StocksAnalyser

/-- JSON values, the possible shapes of an inbound HTTP request body. -/
inductive Json : Type where
  | str (s : String)
  | num (n : Int)
  | bool (b : Bool)
  | null
  | arr (elems : List Json)
  | obj (fields : List (String × Json))

/-- Field lookup on a JSON object; `none` on non-objects or absent keys. -/
def getField : Json → String → Option Json
  | .obj fields, key => List.lookup key fields
  | _, _ => none

/-- main.py `PromptObject`: pydantic model with three required string fields. -/
structure PromptObject where
  content : String
  id : String
  role : String
deriving DecidableEq, Repr

/-- main.py `RequestObject`: pydantic model for the POST /api/chat body. -/
structure RequestObject where
  prompt : PromptObject
  threadId : String
  responseId : String
deriving DecidableEq, Repr

/-- One entry of a pydantic/FastAPI validation error response: the location
    (field path) of the offending field and the constraint violated. -/
structure FieldError where
  loc : List String
  constraint : String
deriving DecidableEq, Repr

/-- Pydantic check of one required `str` field: absent gives `missing`,
    present with a non-string JSON value gives `string_type`. -/
def checkStr (path : List String) (v : Option Json) : List FieldError :=
  match v with
  | none => [⟨path, "missing"⟩]
  | some (.str _) => []
  | some _ => [⟨path, "string_type"⟩]

/-- Whether an optional JSON value is present and a string. -/
def isStrField (v : Option Json) : Bool :=
  match v with
  | some (.str _) => true
  | _ => false

/-- Validation errors of a value submitted for the `PromptObject` model:
    a non-object is rejected outright, an object has its three required
    string fields checked. -/
def promptErrors (p : Json) : List FieldError :=
  match p with
  | .obj _ =>
      checkStr ["body", "prompt", "content"] (getField p "content") ++
      checkStr ["body", "prompt", "id"] (getField p "id") ++
      checkStr ["body", "prompt", "role"] (getField p "role")
  | _ => [⟨["body", "prompt"], "model_type"⟩]

/-- Validation errors of a request body against `RequestObject`: the body
    must be a JSON object with a `prompt` sub-model and the two required
    string fields `threadId` and `responseId`; extra fields are ignored. -/
def requestErrors (j : Json) : List FieldError :=
  match j with
  | .obj _ =>
      (match getField j "prompt" with
       | none => [⟨["body", "prompt"], "missing"⟩]
       | some p => promptErrors p) ++
      checkStr ["body", "threadId"] (getField j "threadId") ++
      checkStr ["body", "responseId"] (getField j "responseId")
  | _ => [⟨["body"], "model_type"⟩]

/-- Whether a JSON value matches the `PromptObject` shape. -/
def promptShape (p : Json) : Bool :=
  match p with
  | .obj _ =>
      isStrField (getField p "content") && isStrField (getField p "id") &&
      isStrField (getField p "role")
  | _ => false

/-- Whether a JSON body matches the Request shape: an object whose `prompt`
    matches `PromptObject` and whose `threadId` and `responseId` are strings. -/
def matchesShape (j : Json) : Bool :=
  match j with
  | .obj _ =>
      (match getField j "prompt" with
       | none => false
       | some p => promptShape p) &&
      isStrField (getField j "threadId") && isStrField (getField j "responseId")
  | _ => false

/-- String content of an optional JSON value; only used once validation has
    established the value is present and a string. -/
def strOr (v : Option Json) : String :=
  match v with
  | some (.str s) => s
  | _ => ""

/-- Field extraction of a request body that passed validation. -/
def extractRequest (j : Json) : RequestObject :=
  let p := (getField j "prompt").getD .null
  { prompt :=
      { content := strOr (getField p "content")
        id := strOr (getField p "id")
        role := strOr (getField p "role") }
    threadId := strOr (getField j "threadId")
    responseId := strOr (getField j "responseId") }

/-- FastAPI/pydantic validation of the POST body: all field errors are
    collected; a body with none parses into a `RequestObject`. -/
def validateRequest (j : Json) : Except (List FieldError) RequestObject :=
  match requestErrors j with
  | [] => .ok (extractRequest j)
  | errs => .error errs

/-- A langchain chat message: `SystemMessage` or `HumanMessage` in main.py. -/
inductive ChatMessage : Type where
  | system (content : String)
  | human (content : String)
deriving DecidableEq, Repr

/-- The inner `configurable` dict of the config built in `chat`. -/
structure Configurable where
  thread_id : String
deriving DecidableEq, Repr

/-- The config passed to `agent.stream`, main.py line 137. -/
structure RunnableConfig where
  configurable : Configurable
deriving DecidableEq, Repr

/-- A tool as registered by the `@tool` decorator: a stable name and a
    natural-language description consumed by the agent. -/
structure ToolDescriptor where
  name : String
  description : String
deriving DecidableEq, Repr

/-- The agent built by `create_agent(model=..., checkpointer=..., tools=[...])`. -/
structure Agent where
  model_id : String
  tools : List ToolDescriptor
deriving DecidableEq, Repr

def get_stock_price_tool : ToolDescriptor :=
  ⟨"get_stock_price",
   "A function that returns the current stock price based on a ticker symbol."⟩

def get_historical_stock_price_tool : ToolDescriptor :=
  ⟨"get_historical_stock_price",
   "A function that returns the current stock price over time based on a ticker symbol and a start and end date."⟩

def get_balance_sheet_tool : ToolDescriptor :=
  ⟨"get_balance_sheet",
   "A function that returns the balance sheet based on a ticker symbol."⟩

def get_stock_news_tool : ToolDescriptor :=
  ⟨"get_stock_news",
   "A function that returns news based on a ticker symbol."⟩

def get_company_info_tool : ToolDescriptor :=
  ⟨"get_company_info",
   "Return company profile / info for a ticker (summary, sector, industry, website, etc.)."⟩

def get_dividends_tool : ToolDescriptor :=
  ⟨"get_dividends",
   "Return dividend history for a ticker."⟩

def get_financials_tool : ToolDescriptor :=
  ⟨"get_financials",
   "Return financial statements (income statement / financials) for a ticker."⟩

/-- The process-wide agent, created once at import time (main.py line 105). -/
def agent : Agent :=
  { model_id := "c1/openai/gpt-5/v-20250930"
    tools := [get_stock_price_tool, get_historical_stock_price_tool,
              get_balance_sheet_tool, get_stock_news_tool,
              get_company_info_tool, get_dividends_tool, get_financials_tool] }

/-- The fixed system instruction passed as the first message (main.py line 147). -/
def systemPromptText : String :=
  "You are a stock analysis assistant. You have the ability to get real-time stock prices, historical stock prices (given a date range), news,balance sheet data ,company information,dividend history, and financial statements for publicly traded companies using the provided tools. Use these tools to provide accurate and up-to-date information about stocks when responding to user queries."

/-- One call to `agent.stream`: who is called, the message list, the stream
    mode and the config. -/
structure AgentInvocation where
  agent : Agent
  messages : List ChatMessage
  stream_mode : String
  config : RunnableConfig
deriving DecidableEq, Repr

/-- The `agent.stream` call the `generate` body makes for a validated
    request (main.py lines 145-152). -/
def chatInvocation (req : RequestObject) : AgentInvocation :=
  { agent := agent
    messages := [.system systemPromptText, .human req.prompt.content]
    stream_mode := "messages"
    config := { configurable := { thread_id := req.threadId } } }

/-- A token chunk yielded by the agent stream. -/
structure Token where
  content : String
deriving DecidableEq, Repr

/-- The metadata half of each `(token, metadata)` pair yielded in
    stream_mode `messages`; the handler ignores it (`for token, _ in ...`). -/
structure StreamMeta where
  raw : List (String × String)
deriving DecidableEq, Repr

/-- The sequence of `(token, metadata)` pairs one `agent.stream` call yields. -/
abbrev AgentStream := List (Token × StreamMeta)

/-- The `generate` generator of `chat`: yield `token.content` for each pair
    the agent stream produces, in order, unchanged. -/
def generate (stream : AgentStream) : List String :=
  stream.map (fun p => p.1.content)

/-- The `StreamingResponse` returned by `chat`: fixed status, media type,
    headers, and a body that is a still-unapplied function of the agent
    stream (the generator runs only when the response body is consumed). -/
structure ChatResponse where
  status_code : Nat
  media_type : String
  headers : List (String × String)
  body : AgentStream → List String

/-- The response `chat` builds for a validated request (main.py lines
    158-162); `status_code` is the StreamingResponse default 200. -/
def chatResponse (_req : RequestObject) : ChatResponse :=
  { status_code := 200
    media_type := "text/event-stream"
    headers := [("Cache-Control", "no-cache, no-transform"),
                ("Connection", "keep-alive")]
    body := generate }

/-- Observable outcome of one POST /api/chat: a validation-error response or
    a streaming response. -/
inductive HandlerResult : Type where
  | validationError (status : Nat) (errors : List FieldError)
  | streaming (resp : ChatResponse)

/-- The POST /api/chat endpoint: FastAPI validates the body against
    `RequestObject` and answers 422 on failure; otherwise the `chat` handler
    runs and returns the streaming response. -/
def handleChat (j : Json) : HandlerResult :=
  match validateRequest j with
  | .error errs => .validationError 422 errs
  | .ok req => .streaming (chatResponse req)

/-- The `agent.stream` calls a request ever causes: none when validation
    fails, exactly the one made inside `generate` when it succeeds. -/
def agentInvocations (j : Json) : List AgentInvocation :=
  match validateRequest j with
  | .error _ => []
  | .ok req => [chatInvocation req]

/-- Process state visible to a request handler; the only module-level
    objects are the agent (with its tool registry) and the checkpointer. -/
structure ProcessState where
  agent : Agent
deriving DecidableEq, Repr

/-- The state at process start: the agent created at import time. -/
def startupState : ProcessState :=
  { agent := agent }

/-- The `chat` handler as a state transformer: it reads the module-level
    agent but never rebinds or mutates it, so the state passes through. -/
def handleChatStateful (st : ProcessState) (j : Json) : ProcessState × HandlerResult :=
  (st, handleChat j)

/-- An error raised by the external market-data provider (yfinance): an
    invalid ticker, a network failure, a rate limit, ... -/
structure YfError where
  msg : String
deriving DecidableEq, Repr

/-- A pandas DataFrame as yfinance returns it: a column name mapped to its
    entries, each entry a (timestamp, value) pair; timestamps are modelled
    as strings and numeric cells as rationals. -/
abbrev Table := List (String × List (String × ℚ))

/-- A pandas Series: an index of timestamps with one numeric value each. -/
abbrev Series := List (String × ℚ)

/-- A Python value a tool can return to the agent. -/
inductive PyValue : Type where
  | num (x : ℚ)
  | str (s : String)
  | dict (entries : List (String × PyValue))
  | list (elems : List PyValue)
  | series (s : Series)
  | dataFrame (df : Table)

mutual

/-- Whether a Python value is serializable as plain JSON data: numbers,
    strings, and dicts/lists thereof are; raw pandas Series and DataFrame
    objects are not. -/
def serializable : PyValue → Bool
  | .num _ => true
  | .str _ => true
  | .dict entries => serializableEntries entries
  | .list elems => serializableList elems
  | .series _ => false
  | .dataFrame _ => false

/-- Serializability of every value of a dict. -/
def serializableEntries : List (String × PyValue) → Bool
  | [] => true
  | (_, v) :: rest => serializable v && serializableEntries rest

/-- Serializability of every element of a list. -/
def serializableList : List PyValue → Bool
  | [] => true
  | v :: rest => serializable v && serializableList rest

end

/-- `DataFrame.to_dict()`: a dict keyed by column (field) name, each value a
    dict from timestamp to numeric cell value. -/
def tableToDict (t : Table) : PyValue :=
  .dict (t.map fun col => (col.1, .dict (col.2.map fun e => (e.1, .num e.2))))

/-- `Series.to_dict()`: a dict from timestamp to numeric value. -/
def seriesToDict (s : Series) : PyValue :=
  .dict (s.map fun e => (e.1, .num e.2))

/-- Whether a Python value is a number. -/
def isNum : PyValue → Bool
  | .num _ => true
  | _ => false

/-- Whether a value is a dict whose values are all numbers. -/
def isTimestampNumDict : PyValue → Bool
  | .dict entries => entries.all fun e => isNum e.2
  | _ => false

/-- Whether a value is a mapping keyed by field name whose values are each a
    mapping from timestamp to numeric value: the documented shape of the
    historical-price payload. -/
def isFieldKeyedHistory : PyValue → Bool
  | .dict entries => entries.all fun e => isTimestampNumDict e.2
  | _ => false

/-- What `yf.Ticker(ticker)` gives access to, each access either producing
    provider data or raising a provider error. `history none` is the
    zero-argument `history()` call, `history (some (s, e))` the call with an
    explicit start and end date. News and company info arrive as parsed
    JSON from the provider API: lists/dicts of string fields. -/
structure TickerData where
  history : Option (String × String) → Except YfError Table
  balance_sheet : Except YfError Table
  news : Except YfError (List (List (String × String)))
  info : Except YfError (List (String × String))
  dividends : Except YfError Series
  financials : Except YfError Table

/-- The yfinance provider: ticker symbol to the data behind `yf.Ticker`. -/
abbrev Provider := String → TickerData

/-- A local side effect of running a tool: a line printed to stdout, or the
    call out to the external market-data provider. -/
inductive Effect : Type where
  | stdout (line : String)
  | providerCall (accessed : String)
deriving DecidableEq, Repr

/-- The stdout lines among a trace of effects. -/
def stdoutLines (effs : List Effect) : List String :=
  effs.filterMap fun e =>
    match e with
    | .stdout s => some s
    | .providerCall _ => none

/-- Pandas evaluation of `history()['Close'].iloc[-1]`: select the Close
    column (KeyError when absent) and take its last value (an out-of-bounds
    indexer on an empty column). -/
def lastClose (t : Table) : Except YfError ℚ :=
  match List.lookup "Close" t with
  | none => .error ⟨"KeyError: Close"⟩
  | some closes =>
      match closes.getLast? with
      | none => .error ⟨"IndexError: single positional indexer is out-of-bounds"⟩
      | some entry => .ok entry.2

/-- Tool `get_stock_price`: print the diagnostic line, hit the provider for
    `history()`, and return the last Close value. -/
def get_stock_price (yf : Provider) (ticker : String) :
    List Effect × Except YfError PyValue :=
  ([.stdout "get_stock_price tool is being used",
    .providerCall "Ticker.history"],
   ((yf ticker).history none).bind fun t => (lastClose t).map PyValue.num)

/-- Tool `get_historical_stock_price`: print the diagnostic line, hit the
    provider for `history(start=start_date, end=end_date)`, and return the
    DataFrame converted by `to_dict()`. -/
def get_historical_stock_price (yf : Provider) (ticker start_date end_date : String) :
    List Effect × Except YfError PyValue :=
  ([.stdout "get_historical_stock_price tool is being used",
    .providerCall "Ticker.history"],
   ((yf ticker).history (some (start_date, end_date))).map tableToDict)

/-- Tool `get_balance_sheet`: print the diagnostic line and return the
    provider balance-sheet DataFrame as-is, with no `to_dict()` conversion. -/
def get_balance_sheet (yf : Provider) (ticker : String) :
    List Effect × Except YfError PyValue :=
  ([.stdout "get_balance_sheet tool is being used",
    .providerCall "Ticker.balance_sheet"],
   ((yf ticker).balance_sheet).map PyValue.dataFrame)

/-- Tool `get_stock_news`: print the diagnostic line and return the list of
    news items from the provider. -/
def get_stock_news (yf : Provider) (ticker : String) :
    List Effect × Except YfError PyValue :=
  ([.stdout "get_stock_news tool is being used",
    .providerCall "Ticker.news"],
   ((yf ticker).news).map fun items =>
     .list (items.map fun item => .dict (item.map fun kv => (kv.1, .str kv.2))))

/-- Tool `get_company_info`: print the diagnostic line and return the
    provider profile dict. -/
def get_company_info (yf : Provider) (ticker : String) :
    List Effect × Except YfError PyValue :=
  ([.stdout "get_company_info tool is being used",
    .providerCall "Ticker.info"],
   ((yf ticker).info).map fun d => .dict (d.map fun kv => (kv.1, .str kv.2)))

/-- Tool `get_dividends`: print the diagnostic line and return the dividend
    Series converted by `to_dict()`. -/
def get_dividends (yf : Provider) (ticker : String) :
    List Effect × Except YfError PyValue :=
  ([.stdout "get_dividends tool is being used",
    .providerCall "Ticker.dividends"],
   ((yf ticker).dividends).map seriesToDict)

/-- Tool `get_financials`: print the diagnostic line and return the
    financial-statements DataFrame converted by `to_dict()`. -/
def get_financials (yf : Provider) (ticker : String) :
    List Effect × Except YfError PyValue :=
  ([.stdout "get_financials tool is being used",
    .providerCall "Ticker.financials"],
   ((yf ticker).financials).map tableToDict)

/-- Builder of a request body whose five fields are all strings. -/
def mkBody (content id role threadId responseId : String) : Json :=
  .obj [("prompt", .obj [("content", .str content), ("id", .str id),
                         ("role", .str role)]),
        ("threadId", .str threadId), ("responseId", .str responseId)]

/-- A concrete well-formed request body. -/
def sampleBody : Json :=
  mkBody "What is AAPL at?" "1" "user" "t1" "r1"

/-- The request `sampleBody` parses into. -/
def sampleRequest : RequestObject :=
  ⟨⟨"What is AAPL at?", "1", "user"⟩, "t1", "r1"⟩

/-- A well-formed body differing from `sampleBody` only in `prompt.id`,
    `prompt.role` and `responseId`. -/
def sampleBody2 : Json :=
  mkBody "What is AAPL at?" "99" "assistant" "t1" "r2"

/-- The request `sampleBody2` parses into. -/
def sampleRequest2 : RequestObject :=
  ⟨⟨"What is AAPL at?", "99", "assistant"⟩, "t1", "r2"⟩

/-- A concrete agent stream of two token chunks. -/
def sampleStream : AgentStream :=
  [(⟨"Hel"⟩, ⟨[]⟩), (⟨"lo"⟩, ⟨[]⟩)]

/-- A concrete balance-sheet table as the provider would return it. -/
def aaplBalanceSheet : Table :=
  [("Total Assets", [("2023-09-30", 352583000000), ("2024-09-30", 364980000000)]),
   ("Total Debt", [("2023-09-30", 111088000000), ("2024-09-30", 106629000000)])]

/-- Concrete provider data for one ticker, all lookups succeeding. -/
def aaplData : TickerData :=
  { history := fun _ => .ok [("Close", [("2025-10-09", 245), ("2025-10-10", 247)])]
    balance_sheet := .ok aaplBalanceSheet
    news := .ok [[("title", "Apple reports quarterly results")]]
    info := .ok [("sector", "Technology"), ("industry", "Consumer Electronics")]
    dividends := .ok [("2025-08-11", 26/100)]
    financials := .ok [("Total Revenue", [("2024-09-30", 391035000000)])] }

/-- A provider on which every lookup succeeds with `aaplData`. -/
def sampleYf : Provider := fun _ => aaplData

/-- A provider on which every access raises the same provider error. -/
def downYf : Provider := fun _ =>
  { history := fun _ => .error ⟨"HTTPError 404"⟩
    balance_sheet := .error ⟨"HTTPError 404"⟩
    news := .error ⟨"HTTPError 404"⟩
    info := .error ⟨"HTTPError 404"⟩
    dividends := .error ⟨"HTTPError 404"⟩
    financials := .error ⟨"HTTPError 404"⟩ }

/- ------------------------------------------------------------------ -/
/- Helper lemmas about validation.                                    -/
/- ------------------------------------------------------------------ -/

theorem checkStr_eq_nil_iff (path : List String) (v : Option Json) :
    checkStr path v = [] ↔ isStrField v = true := by
  cases v with
  | none => simp [checkStr, isStrField]
  | some x => cases x <;> simp [checkStr, isStrField]

theorem promptErrors_eq_nil_iff (p : Json) :
    promptErrors p = [] ↔ promptShape p = true := by
  cases p <;>
    simp [promptErrors, promptShape, checkStr_eq_nil_iff, List.append_eq_nil,
          Bool.and_eq_true, and_assoc]

theorem requestErrors_eq_nil_iff (j : Json) :
    requestErrors j = [] ↔ matchesShape j = true := by
  cases j with
  | obj fields =>
      cases hp : getField (Json.obj fields) "prompt" with
      | none => simp [requestErrors, matchesShape, hp]
      | some p =>
          simp [requestErrors, matchesShape, hp, promptErrors_eq_nil_iff,
                checkStr_eq_nil_iff, List.append_eq_nil, Bool.and_eq_true, and_assoc]
  | str s => simp [requestErrors, matchesShape]
  | num n => simp [requestErrors, matchesShape]
  | bool b => simp [requestErrors, matchesShape]
  | null => simp [requestErrors, matchesShape]
  | arr xs => simp [requestErrors, matchesShape]

theorem checkStr_wf (path : List String) (v : Option Json) (hp : path ≠ []) :
    ∀ e ∈ checkStr path v, e.loc ≠ [] ∧ e.constraint ≠ "" := by
  intro e he
  match v with
  | none =>
      simp only [checkStr, List.mem_singleton] at he
      subst he
      exact ⟨hp, by simp⟩
  | some (.str s) => simp [checkStr] at he
  | some (.num n) | some (.bool b) | some .null | some (.arr xs) | some (.obj fs) =>
      simp only [checkStr, List.mem_singleton] at he
      subst he
      exact ⟨hp, by simp⟩

theorem promptErrors_wf (p : Json) :
    ∀ e ∈ promptErrors p, e.loc ≠ [] ∧ e.constraint ≠ "" := by
  intro e he
  cases p with
  | obj fs =>
      simp only [promptErrors, List.mem_append] at he
      rcases he with (he | he) | he
      · exact checkStr_wf _ _ (by simp) e he
      · exact checkStr_wf _ _ (by simp) e he
      · exact checkStr_wf _ _ (by simp) e he
  | str s => simp only [promptErrors, List.mem_singleton] at he; subst he; exact ⟨by simp, by simp⟩
  | num n => simp only [promptErrors, List.mem_singleton] at he; subst he; exact ⟨by simp, by simp⟩
  | bool b => simp only [promptErrors, List.mem_singleton] at he; subst he; exact ⟨by simp, by simp⟩
  | null => simp only [promptErrors, List.mem_singleton] at he; subst he; exact ⟨by simp, by simp⟩
  | arr xs => simp only [promptErrors, List.mem_singleton] at he; subst he; exact ⟨by simp, by simp⟩

theorem requestErrors_wf (j : Json) :
    ∀ e ∈ requestErrors j, e.loc ≠ [] ∧ e.constraint ≠ "" := by
  intro e he
  cases j with
  | obj fields =>
      simp only [requestErrors] at he
      cases hp : getField (Json.obj fields) "prompt" with
      | none =>
          rw [hp] at he
          simp only [List.mem_append, List.mem_singleton] at he
          rcases he with (he | he) | he
          · subst he; exact ⟨by simp, by simp⟩
          · exact checkStr_wf _ _ (by simp) e he
          · exact checkStr_wf _ _ (by simp) e he
      | some p =>
          rw [hp] at he
          simp only [List.mem_append] at he
          rcases he with (he | he) | he
          · exact promptErrors_wf p e he
          · exact checkStr_wf _ _ (by simp) e he
          · exact checkStr_wf _ _ (by simp) e he
  | str s => simp only [requestErrors, List.mem_singleton] at he; subst he; exact ⟨by simp, by simp⟩
  | num n => simp only [requestErrors, List.mem_singleton] at he; subst he; exact ⟨by simp, by simp⟩
  | bool b => simp only [requestErrors, List.mem_singleton] at he; subst he; exact ⟨by simp, by simp⟩
  | null => simp only [requestErrors, List.mem_singleton] at he; subst he; exact ⟨by simp, by simp⟩
  | arr xs => simp only [requestErrors, List.mem_singleton] at he; subst he; exact ⟨by simp, by simp⟩

theorem validateRequest_ok_shape (j : Json) (r : RequestObject)
    (h : validateRequest j = .ok r) :
    matchesShape j = true ∧ r = extractRequest j := by
  unfold validateRequest at h
  cases hE : requestErrors j with
  | nil =>
      rw [hE] at h
      simp only [Except.ok.injEq] at h
      exact ⟨(requestErrors_eq_nil_iff j).mp hE, h.symm⟩
  | cons a l =>
      rw [hE] at h
      simp at h

theorem matchesShape_fields (j : Json) (h : matchesShape j = true) :
    isStrField (getField j "threadId") = true ∧
    isStrField (getField j "responseId") = true ∧
    ∃ p, getField j "prompt" = some p ∧
      isStrField (getField p "content") = true ∧
      isStrField (getField p "id") = true ∧
      isStrField (getField p "role") = true := by
  cases j with
  | obj fields =>
      cases hp : getField (Json.obj fields) "prompt" with
      | none => simp [matchesShape, hp] at h
      | some p =>
          simp only [matchesShape, hp, Bool.and_eq_true] at h
          obtain ⟨⟨hps, hth⟩, hrs⟩ := h
          cases p with
          | obj pf =>
              simp only [promptShape, Bool.and_eq_true] at hps
              obtain ⟨⟨hc, hi⟩, hr⟩ := hps
              exact ⟨hth, hrs, Json.obj pf, rfl, hc, hi, hr⟩
          | str s => simp [promptShape] at hps
          | num n => simp [promptShape] at hps
          | bool b => simp [promptShape] at hps
          | null => simp [promptShape] at hps
          | arr xs => simp [promptShape] at hps
  | str s => simp [matchesShape] at h
  | num n => simp [matchesShape] at h
  | bool b => simp [matchesShape] at h
  | null => simp [matchesShape] at h
  | arr xs => simp [matchesShape] at h

/- ------------------------------------------------------------------ -/
/- Helper lemmas about payload serializability and shape.             -/
/- ------------------------------------------------------------------ -/

theorem serializableEntries_num_map (s : Series) :
    serializableEntries (s.map fun e => (e.1, PyValue.num e.2)) = true := by
  induction s with
  | nil => rfl
  | cons e rest ih =>
      obtain ⟨k, v⟩ := e
      simp only [List.map_cons, serializableEntries, serializable, ih,
                 Bool.and_true]

theorem serializableEntries_str_map (d : List (String × String)) :
    serializableEntries (d.map fun kv => (kv.1, PyValue.str kv.2)) = true := by
  induction d with
  | nil => rfl
  | cons e rest ih =>
      obtain ⟨k, v⟩ := e
      simp only [List.map_cons, serializableEntries, serializable, ih,
                 Bool.and_true]

theorem serializable_seriesToDict (s : Series) :
    serializable (seriesToDict s) = true := by
  simp only [seriesToDict, serializable]
  exact serializableEntries_num_map s

theorem serializable_tableToDict (t : Table) :
    serializable (tableToDict t) = true := by
  simp only [tableToDict, serializable]
  induction t with
  | nil => rfl
  | cons col rest ih =>
      obtain ⟨name, entries⟩ := col
      simp only [List.map_cons, serializableEntries, serializable, ih,
                 serializableEntries_num_map, Bool.and_true]

theorem serializable_newsList (items : List (List (String × String))) :
    serializable
      (.list (items.map fun item =>
        .dict (item.map fun kv => (kv.1, .str kv.2)))) = true := by
  simp only [serializable]
  induction items with
  | nil => rfl
  | cons item rest ih =>
      simp only [List.map_cons, serializableList, serializable, ih,
                 serializableEntries_str_map, Bool.and_true]

theorem isTimestampNumDict_seriesToDict (s : Series) :
    isTimestampNumDict (seriesToDict s) = true := by
  simp only [seriesToDict, isTimestampNumDict, List.all_eq_true]
  intro e he
  rcases List.mem_map.mp he with ⟨a, ha, rfl⟩
  rfl

theorem isFieldKeyedHistory_tableToDict (t : Table) :
    isFieldKeyedHistory (tableToDict t) = true := by
  simp only [tableToDict, isFieldKeyedHistory, List.all_eq_true]
  intro e he
  rcases List.mem_map.mp he with ⟨col, hcol, rfl⟩
  have h := isTimestampNumDict_seriesToDict col.2
  simpa [seriesToDict] using h

/- ------------------------------------------------------------------ -/
/- Claim theorems.                                                    -/
/- ------------------------------------------------------------------ -/

/-- C1: a POST /api/chat body that does not match the Request shape —
    missing prompt.content, threadId or responseId, or a field of the wrong
    type — is answered with a 4xx (422) validation error whose entries each
    name a field location and a violated constraint, and no agent stream is
    ever opened for it. -/
theorem chat_invalid_body_rejected_without_agent (j : Json)
    (h : matchesShape j = false) :
    handleChat j = .validationError 422 (requestErrors j) ∧
    requestErrors j ≠ [] ∧
    (∀ e ∈ requestErrors j, e.loc ≠ [] ∧ e.constraint ≠ "") ∧
    400 ≤ 422 ∧ 422 < 500 ∧
    agentInvocations j = [] := by
  have hne : requestErrors j ≠ [] := by
    intro hE
    have := (requestErrors_eq_nil_iff j).mp hE
    rw [h] at this
    exact Bool.false_ne_true this
  have hv : validateRequest j = .error (requestErrors j) := by
    unfold validateRequest
    cases hE : requestErrors j with
    | nil => exact absurd hE hne
    | cons a l => rfl
  refine ⟨?_, hne, requestErrors_wf j, by norm_num, by norm_num, ?_⟩
  · simp [handleChat, hv]
  · simp [agentInvocations, hv]

/-- C1 witness: a concrete body with a non-string threadId and no prompt or
    responseId is rejected with the validation error and no agent call. -/
theorem chat_invalid_body_rejected_without_agent_witness :
    matchesShape (Json.obj [("threadId", Json.num 5)]) = false ∧
    handleChat (Json.obj [("threadId", Json.num 5)]) =
      .validationError 422 (requestErrors (Json.obj [("threadId", Json.num 5)])) ∧
    agentInvocations (Json.obj [("threadId", Json.num 5)]) = [] :=
  ⟨rfl,
   (chat_invalid_body_rejected_without_agent (Json.obj [("threadId", Json.num 5)]) rfl).1,
   (chat_invalid_body_rejected_without_agent (Json.obj [("threadId", Json.num 5)]) rfl).2.2.2.2.2⟩

/-- C2: a body that validates is answered by the streaming response: HTTP
    status 200, media type text/event-stream, the two cache/keep-alive
    headers, and a body that is the still-unapplied `generate` relay — the
    response value carries these fields before any agent token exists. -/
theorem chat_valid_request_streaming_headers (j : Json) (req : RequestObject)
    (h : validateRequest j = .ok req) :
    handleChat j = .streaming (chatResponse req) ∧
    (chatResponse req).status_code = 200 ∧
    (chatResponse req).media_type = "text/event-stream" ∧
    (chatResponse req).headers =
      [("Cache-Control", "no-cache, no-transform"), ("Connection", "keep-alive")] ∧
    (chatResponse req).body = generate := by
  refine ⟨?_, rfl, rfl, rfl, rfl⟩
  simp [handleChat, h]

/-- C2 witness: the concrete valid body gets the 200 event-stream response. -/
theorem chat_valid_request_streaming_headers_witness :
    validateRequest sampleBody = .ok sampleRequest ∧
    handleChat sampleBody = .streaming (chatResponse sampleRequest) ∧
    (chatResponse sampleRequest).status_code = 200 ∧
    (chatResponse sampleRequest).media_type = "text/event-stream" :=
  ⟨rfl,
   (chat_valid_request_streaming_headers sampleBody sampleRequest rfl).1,
   (chat_valid_request_streaming_headers sampleBody sampleRequest rfl).2.1,
   (chat_valid_request_streaming_headers sampleBody sampleRequest rfl).2.2.1⟩

/-- C3: for a validated request the agent is invoked exactly once, with
    exactly two messages — the fixed system instruction then a human message
    equal to request.prompt.content — in stream mode `messages` with config
    `configurable.thread_id = request.threadId`. -/
theorem chat_agent_invocation_two_messages (j : Json) (req : RequestObject)
    (h : validateRequest j = .ok req) :
    agentInvocations j = [chatInvocation req] ∧
    (chatInvocation req).messages =
      [.system systemPromptText, .human req.prompt.content] ∧
    (chatInvocation req).messages.length = 2 ∧
    (chatInvocation req).stream_mode = "messages" ∧
    (chatInvocation req).config = ⟨⟨req.threadId⟩⟩ := by
  refine ⟨?_, rfl, rfl, rfl, rfl⟩
  simp [agentInvocations, h]

/-- C3 witness: the concrete valid body yields the single two-message
    invocation with its thread id. -/
theorem chat_agent_invocation_two_messages_witness :
    agentInvocations sampleBody = [chatInvocation sampleRequest] ∧
    (chatInvocation sampleRequest).messages =
      [.system systemPromptText, .human "What is AAPL at?"] ∧
    (chatInvocation sampleRequest).config.configurable.thread_id = "t1" :=
  ⟨(chat_agent_invocation_two_messages sampleBody sampleRequest rfl).1,
   (chat_agent_invocation_two_messages sampleBody sampleRequest rfl).2.1,
   rfl⟩

/-- C4: the streaming body of the response relays every token content
    unchanged and in order: the emitted chunk list is exactly the map of
    `content` over the agent stream, chunk count equals token count, and the
    concatenation of the chunks equals the concatenation of the token
    contents. -/
theorem chat_stream_relayed_unchanged (j : Json) (req : RequestObject)
    (h : validateRequest j = .ok req) (resp : ChatResponse)
    (hr : handleChat j = .streaming resp) (stream : AgentStream) :
    resp.body stream = stream.map (fun p => p.1.content) ∧
    (resp.body stream).length = stream.length ∧
    String.join (resp.body stream) =
      String.join (stream.map fun p => p.1.content) := by
  have hresp : chatResponse req = resp := by
    simp only [handleChat, h, HandlerResult.streaming.injEq] at hr
    exact hr
  subst hresp
  refine ⟨rfl, ?_, rfl⟩
  simp [chatResponse, generate]

/-- C4 witness: on a concrete two-token stream the response body is the two
    contents and joins to their concatenation. -/
theorem chat_stream_relayed_unchanged_witness :
    validateRequest sampleBody = .ok sampleRequest ∧
    (chatResponse sampleRequest).body sampleStream = ["Hel", "lo"] ∧
    String.join ((chatResponse sampleRequest).body sampleStream) = "Hello" := by
  have h := chat_stream_relayed_unchanged sampleBody sampleRequest rfl
    (chatResponse sampleRequest) rfl sampleStream
  refine ⟨rfl, ?_, ?_⟩
  · rw [h.1]; rfl
  · rw [h.2.2]; rfl

/-- C5: the tool registry is the list built once at process start and is
    immutable: exactly seven data-lookup tools, with distinct stable names
    and nonempty human-readable descriptions; the request handler passes the
    process state through untouched, and every agent invocation any request
    causes uses the startup agent with that registry. -/
theorem tool_registry_static_seven :
    agent.tools.length = 7 ∧
    agent.tools.map ToolDescriptor.name =
      ["get_stock_price", "get_historical_stock_price", "get_balance_sheet",
       "get_stock_news", "get_company_info", "get_dividends", "get_financials"] ∧
    (agent.tools.map ToolDescriptor.name).Nodup ∧
    (agent.tools.all fun t => !t.description.isEmpty) = true ∧
    (∀ st j, (handleChatStateful st j).1 = st) ∧
    startupState.agent = agent ∧
    (∀ j inv, inv ∈ agentInvocations j → inv.agent = agent) := by
  refine ⟨rfl, rfl, by decide, by decide, fun st j => rfl, rfl, ?_⟩
  intro j inv hmem
  unfold agentInvocations at hmem
  cases hv : validateRequest j with
  | error errs => rw [hv] at hmem; simp at hmem
  | ok req =>
      rw [hv] at hmem
      simp only [List.mem_singleton] at hmem
      subst hmem
      rfl

/-- C5 witness: the concrete valid request's one invocation uses the startup
    agent and its seven-tool registry. -/
theorem tool_registry_static_seven_witness :
    (chatInvocation sampleRequest).agent = agent ∧
    (chatInvocation sampleRequest).agent.tools.length = 7 :=
  ⟨tool_registry_static_seven.2.2.2.2.2.2 sampleBody (chatInvocation sampleRequest)
     (List.mem_singleton.mpr rfl),
   tool_registry_static_seven.1⟩

/-- C6 counterexample: on a concrete provider the balance-sheet lookup
    returns the provider table as a raw DataFrame, which is not a
    serializable payload — refuting the claim that every lookup, in
    particular the balance-sheet lookup, returns a serializable payload. -/
theorem balance_sheet_payload_not_serializable :
    (get_balance_sheet sampleYf "AAPL").2 = .ok (.dataFrame aaplBalanceSheet) ∧
    serializable (.dataFrame aaplBalanceSheet) = false :=
  ⟨rfl, by simp [serializable]⟩

/-- C6 amended: each lookup, on provider success, returns the payload of its
    documented shape — the historical lookup a serializable mapping keyed by
    field name with timestamp-to-number mappings as values, the price a
    number, news a serializable list, company info and dividends
    serializable dicts, financials a serializable dict — while the
    balance-sheet lookup returns the provider DataFrame unconverted. -/
theorem lookup_payload_shapes (yf : Provider) (ticker sd ed : String) :
    (∀ t, (yf ticker).history (some (sd, ed)) = .ok t →
        (get_historical_stock_price yf ticker sd ed).2 = .ok (tableToDict t) ∧
        isFieldKeyedHistory (tableToDict t) = true ∧
        serializable (tableToDict t) = true) ∧
    (∀ t q, (yf ticker).history none = .ok t → lastClose t = .ok q →
        (get_stock_price yf ticker).2 = .ok (.num q) ∧
        serializable (.num q) = true) ∧
    (∀ t, (yf ticker).balance_sheet = .ok t →
        (get_balance_sheet yf ticker).2 = .ok (.dataFrame t)) ∧
    (∀ items, (yf ticker).news = .ok items →
        (get_stock_news yf ticker).2 =
          .ok (.list (items.map fun item =>
            .dict (item.map fun kv => (kv.1, .str kv.2)))) ∧
        serializable (.list (items.map fun item =>
          .dict (item.map fun kv => (kv.1, .str kv.2)))) = true) ∧
    (∀ d, (yf ticker).info = .ok d →
        (get_company_info yf ticker).2 =
          .ok (.dict (d.map fun kv => (kv.1, .str kv.2))) ∧
        serializable (.dict (d.map fun kv => (kv.1, .str kv.2))) = true) ∧
    (∀ s, (yf ticker).dividends = .ok s →
        (get_dividends yf ticker).2 = .ok (seriesToDict s) ∧
        isTimestampNumDict (seriesToDict s) = true ∧
        serializable (seriesToDict s) = true) ∧
    (∀ t, (yf ticker).financials = .ok t →
        (get_financials yf ticker).2 = .ok (tableToDict t) ∧
        serializable (tableToDict t) = true) := by
  refine ⟨fun t h => ⟨?_, isFieldKeyedHistory_tableToDict t, serializable_tableToDict t⟩,
          fun t q ht hq => ⟨?_, by simp [serializable]⟩,
          fun t h => ?_,
          fun items h => ⟨?_, serializable_newsList items⟩,
          fun d h => ⟨?_, by simpa [serializable] using serializableEntries_str_map d⟩,
          fun s h => ⟨?_, isTimestampNumDict_seriesToDict s, serializable_seriesToDict s⟩,
          fun t h => ⟨?_, serializable_tableToDict t⟩⟩
  · simp [get_historical_stock_price, h, Except.map]
  · simp [get_stock_price, ht, hq, Except.bind, Except.map]
  · simp [get_balance_sheet, h, Except.map]
  · simp [get_stock_news, h, Except.map]
  · simp [get_company_info, h, Except.map]
  · simp [get_dividends, h, Except.map]
  · simp [get_financials, h, Except.map]

/-- C6 witness: on the concrete all-succeeding provider the historical
    lookup returns the field-keyed timestamp mapping and the dividends
    lookup a serializable dict. -/
theorem lookup_payload_shapes_witness :
    (get_historical_stock_price sampleYf "AAPL" "2025-01-01" "2025-02-01").2 =
      .ok (tableToDict [("Close", [("2025-10-09", 245), ("2025-10-10", 247)])]) ∧
    isFieldKeyedHistory
      (tableToDict [("Close", [("2025-10-09", 245), ("2025-10-10", 247)])]) = true ∧
    (get_dividends sampleYf "AAPL").2 = .ok (seriesToDict [("2025-08-11", 26/100)]) := by
  have h := lookup_payload_shapes sampleYf "AAPL" "2025-01-01" "2025-02-01"
  have h1 := h.1 [("Close", [("2025-10-09", 245), ("2025-10-10", 247)])] rfl
  have h6 := h.2.2.2.2.2.1 [("2025-08-11", 26/100)] rfl
  exact ⟨h1.1, h1.2.1, h6.1⟩

/-- C7: whenever the provider raises an error on the access a lookup
    performs, the lookup returns exactly that error, unmodified — there is
    no catch, retry, or default payload on any of the seven lookups. -/
theorem provider_errors_propagate (yf : Provider) (ticker sd ed : String)
    (e : YfError) :
    ((yf ticker).history none = .error e →
        (get_stock_price yf ticker).2 = .error e) ∧
    ((yf ticker).history (some (sd, ed)) = .error e →
        (get_historical_stock_price yf ticker sd ed).2 = .error e) ∧
    ((yf ticker).balance_sheet = .error e →
        (get_balance_sheet yf ticker).2 = .error e) ∧
    ((yf ticker).news = .error e → (get_stock_news yf ticker).2 = .error e) ∧
    ((yf ticker).info = .error e → (get_company_info yf ticker).2 = .error e) ∧
    ((yf ticker).dividends = .error e →
        (get_dividends yf ticker).2 = .error e) ∧
    ((yf ticker).financials = .error e →
        (get_financials yf ticker).2 = .error e) := by
  refine ⟨fun h => ?_, fun h => ?_, fun h => ?_, fun h => ?_, fun h => ?_,
          fun h => ?_, fun h => ?_⟩
  · simp [get_stock_price, h, Except.bind]
  · simp [get_historical_stock_price, h, Except.map]
  · simp [get_balance_sheet, h, Except.map]
  · simp [get_stock_news, h, Except.map]
  · simp [get_company_info, h, Except.map]
  · simp [get_dividends, h, Except.map]
  · simp [get_financials, h, Except.map]

/-- C7 witness: on a provider that raises HTTPError 404 everywhere, the
    price and balance-sheet lookups both return that very error. -/
theorem provider_errors_propagate_witness :
    (get_stock_price downYf "NOPE").2 = .error ⟨"HTTPError 404"⟩ ∧
    (get_balance_sheet downYf "NOPE").2 = .error ⟨"HTTPError 404"⟩ := by
  have h := provider_errors_propagate downYf "NOPE" "2025-01-01" "2025-02-01"
    ⟨"HTTPError 404"⟩
  exact ⟨h.1 rfl, h.2.2.1 rfl⟩

/-- C8: for any provider and any arguments, each of the seven lookups
    writes exactly one stdout line, that line starts with the lookup's
    name, and the whole local effect trace is that line followed by the one
    call to the external provider. -/
theorem tool_single_diagnostic_line (yf : Provider) (ticker sd ed : String) :
    ((get_stock_price yf ticker).1 =
      [.stdout "get_stock_price tool is being used",
       .providerCall "Ticker.history"] ∧
     stdoutLines (get_stock_price yf ticker).1 =
       ["get_stock_price tool is being used"] ∧
     "get_stock_price tool is being used" = "get_stock_price" ++ " tool is being used") ∧
    ((get_historical_stock_price yf ticker sd ed).1 =
      [.stdout "get_historical_stock_price tool is being used",
       .providerCall "Ticker.history"] ∧
     stdoutLines (get_historical_stock_price yf ticker sd ed).1 =
       ["get_historical_stock_price tool is being used"] ∧
     "get_historical_stock_price tool is being used" =
       "get_historical_stock_price" ++ " tool is being used") ∧
    ((get_balance_sheet yf ticker).1 =
      [.stdout "get_balance_sheet tool is being used",
       .providerCall "Ticker.balance_sheet"] ∧
     stdoutLines (get_balance_sheet yf ticker).1 =
       ["get_balance_sheet tool is being used"] ∧
     "get_balance_sheet tool is being used" = "get_balance_sheet" ++ " tool is being used") ∧
    ((get_stock_news yf ticker).1 =
      [.stdout "get_stock_news tool is being used",
       .providerCall "Ticker.news"] ∧
     stdoutLines (get_stock_news yf ticker).1 =
       ["get_stock_news tool is being used"] ∧
     "get_stock_news tool is being used" = "get_stock_news" ++ " tool is being used") ∧
    ((get_company_info yf ticker).1 =
      [.stdout "get_company_info tool is being used",
       .providerCall "Ticker.info"] ∧
     stdoutLines (get_company_info yf ticker).1 =
       ["get_company_info tool is being used"] ∧
     "get_company_info tool is being used" = "get_company_info" ++ " tool is being used") ∧
    ((get_dividends yf ticker).1 =
      [.stdout "get_dividends tool is being used",
       .providerCall "Ticker.dividends"] ∧
     stdoutLines (get_dividends yf ticker).1 =
       ["get_dividends tool is being used"] ∧
     "get_dividends tool is being used" = "get_dividends" ++ " tool is being used") ∧
    ((get_financials yf ticker).1 =
      [.stdout "get_financials tool is being used",
       .providerCall "Ticker.financials"] ∧
     stdoutLines (get_financials yf ticker).1 =
       ["get_financials tool is being used"] ∧
     "get_financials tool is being used" = "get_financials" ++ " tool is being used") :=
  ⟨⟨rfl, rfl, rfl⟩, ⟨rfl, rfl, rfl⟩, ⟨rfl, rfl, rfl⟩, ⟨rfl, rfl, rfl⟩,
   ⟨rfl, rfl, rfl⟩, ⟨rfl, rfl, rfl⟩, ⟨rfl, rfl, rfl⟩⟩

/-- C9: responseId, prompt.id and prompt.role are validated for presence and
    string type (any accepted body carries them as strings), yet two
    validated requests agreeing on prompt.content and threadId — i.e.
    differing at most in those three fields — produce the same agent
    invocation, the same response, and the same output on any agent
    stream. -/
theorem inert_fields_no_influence (j1 j2 : Json) (r1 r2 : RequestObject)
    (h1 : validateRequest j1 = .ok r1) (_h2 : validateRequest j2 = .ok r2)
    (hc : r1.prompt.content = r2.prompt.content)
    (ht : r1.threadId = r2.threadId) :
    (isStrField (getField j1 "responseId") = true ∧
     ∃ p, getField j1 "prompt" = some p ∧
       isStrField (getField p "id") = true ∧
       isStrField (getField p "role") = true) ∧
    chatInvocation r1 = chatInvocation r2 ∧
    chatResponse r1 = chatResponse r2 ∧
    (∀ stream, (chatResponse r1).body stream = (chatResponse r2).body stream) := by
  obtain ⟨hshape, -⟩ := validateRequest_ok_shape j1 r1 h1
  obtain ⟨-, hresp, p, hp, -, hid, hrole⟩ := matchesShape_fields j1 hshape
  refine ⟨⟨hresp, p, hp, hid, hrole⟩, ?_, rfl, fun stream => rfl⟩
  simp [chatInvocation, hc, ht]

/-- C9 witness: two concrete bodies differing only in responseId, prompt.id
    and prompt.role lead to the same agent invocation. -/
theorem inert_fields_no_influence_witness :
    chatInvocation sampleRequest = chatInvocation sampleRequest2 :=
  (inert_fields_no_influence sampleBody sampleBody2 sampleRequest sampleRequest2
    rfl rfl rfl rfl).2.1

/-- C10: validation checks only presence and string type, not non-emptiness:
    a body of five string fields always validates, and with prompt.content,
    threadId and responseId all empty it still validates and the agent is
    invoked with the empty content and the empty thread id. -/
theorem empty_strings_pass_validation (c i r t rid : String) :
    validateRequest (mkBody c i r t rid) = .ok ⟨⟨c, i, r⟩, t, rid⟩ ∧
    validateRequest (mkBody "" i r "" "") = .ok ⟨⟨"", i, r⟩, "", ""⟩ ∧
    agentInvocations (mkBody "" i r "" "") =
      [chatInvocation ⟨⟨"", i, r⟩, "", ""⟩] ∧
    (chatInvocation ⟨⟨"", i, r⟩, "", ""⟩).messages =
      [.system systemPromptText, .human ""] ∧
    (chatInvocation ⟨⟨"", i, r⟩, "", ""⟩).config.configurable.thread_id = "" :=
  ⟨rfl, rfl, rfl, rfl, rfl⟩

end StocksAnalyser
